import Mathlib

/-!
Shallow embedding of the gesture-classification pipeline of the
AI-INTERPRETER-PLATFFORM repository.

The embedded code lives in:
* `src/src/services/signLanguageDetection.ts` — the detection service
  (`classifyGesture`, `initialize`, `startDetection`, `stopDetection`,
  `updateSettings`);
* `src/src/components/CameraFeed.tsx` — the consumer's confidence gate
  (`handleDetectionResult`);
* `src/src/components/InterpretationDisplay.tsx` — the interpretation
  history buffer (the `textHistory` effect);
* `src/TODO.md` — that repository document embeds an enhanced
  `SignLanguageDetectionService`; its `onResults` guard is the
  sentence-analysis trigger (`shouldAnalyze` below).

Numbers are embedded as exact rationals (`ℚ`); JavaScript strings as
`String`; fallible results as `Option`.  The single source of
nondeterminism, `Math.random()` in the fallback branch of
`classifyGesture`, is made explicit as a `rand : ℕ` parameter: the source
computes `Math.floor(Math.random() * commonSigns.length)`, an arbitrary
index into `commonSigns`, and `rand % commonSigns.length` ranges over
exactly those indices.
-/

/-- `HandLandmark` from `signLanguageDetection.ts`: one tracked point in
normalized image coordinates. -/
structure HandLandmark where
  x : ℚ
  y : ℚ
  z : ℚ
deriving DecidableEq

/-- `DetectionResult` from `signLanguageDetection.ts`.  The interface has
exactly three fields: `sign`, `confidence`, and the optional `landmarks`
echo; it carries no `gestureType` or `handShape` field. -/
structure DetectionResult where
  sign : String
  confidence : ℚ
  landmarks : Option (List (List HandLandmark))
deriving DecidableEq

/-- Default landmark used for out-of-range indexing; `classifyGesture`
only indexes after checking the hand has at least 21 landmarks, so the
default is never consulted on guarded paths. -/
def defaultLandmark : HandLandmark := ⟨0, 0, 0⟩

/-- The `commonSigns` candidate vocabulary of the fallback branch of
`classifyGesture` (lines 108–112 of the source). -/
def commonSigns : List String :=
  ["Hello", "Thank you", "Please", "Yes", "No",
   "Good morning", "How are you?", "Nice to meet you",
   "Sorry", "Help", "Water", "Food", "More"]

/-- The `fingersUp` boolean array computed by `classifyGesture`
(lines 84–90): per-finger extension tests.  Note the source compares the
thumb tip against the *index* MCP joint. -/
def fingersUp (hand : List HandLandmark) : List Bool :=
  let thumbTip := hand.getD 4 defaultLandmark
  let indexTip := hand.getD 8 defaultLandmark
  let middleTip := hand.getD 12 defaultLandmark
  let ringTip := hand.getD 16 defaultLandmark
  let pinkyTip := hand.getD 20 defaultLandmark
  let indexMcp := hand.getD 5 defaultLandmark
  let middleMcp := hand.getD 9 defaultLandmark
  let ringMcp := hand.getD 13 defaultLandmark
  let pinkyMcp := hand.getD 17 defaultLandmark
  [decide (thumbTip.y < indexMcp.y),
   decide (indexTip.y < indexMcp.y),
   decide (middleTip.y < middleMcp.y),
   decide (ringTip.y < ringMcp.y),
   decide (pinkyTip.y < pinkyMcp.y)]

/-- `numFingersUp` (line 92): the number of raised fingers. -/
def numFingersUp (hand : List HandLandmark) : ℕ :=
  ((fingersUp hand).filter id).length

/-- `classifyGesture` (lines 66–117 of `signLanguageDetection.ts`).
`rand` stands for the fresh `Math.random()` draw consumed by the fallback
branch; no other branch reads it.  The function is total: absence of a
classification is the value `none`, never an exception. -/
def classifyGesture (landmarks : List (List HandLandmark)) (rand : ℕ) :
    Option DetectionResult :=
  match landmarks with
  | [] => none
  | firstHand :: _ =>
    if firstHand.length < 21 then none
    else
      let f := fingersUp firstHand
      let n := numFingersUp firstHand
      if n = 0 then
        some ⟨"Fist", 4/5, some landmarks⟩
      else if n = 1 ∧ f.getD 1 false = true then
        some ⟨"Point", 4/5, some landmarks⟩
      else if n = 2 ∧ f.getD 1 false = true ∧ f.getD 2 false = true then
        some ⟨"Peace", 4/5, some landmarks⟩
      else if n = 5 then
        some ⟨"Open Hand", 4/5, some landmarks⟩
      else if f.getD 0 false = true ∧ f.getD 4 false = true ∧
              f.getD 1 false = false ∧ f.getD 2 false = false ∧
              f.getD 3 false = false then
        some ⟨"I Love You", 4/5, some landmarks⟩
      else
        some ⟨commonSigns.getD (rand % commonSigns.length) "Hello",
              7/10, some landmarks⟩

/-- True exactly when `classifyGesture` reaches the random fallback
branch: a first hand with at least 21 landmarks on which none of the five
canonical-pose guards fires. -/
def reachesFallback (landmarks : List (List HandLandmark)) : Bool :=
  match landmarks with
  | [] => false
  | firstHand :: _ =>
    let f := fingersUp firstHand
    let n := numFingersUp firstHand
    !decide (firstHand.length < 21) &&
    !decide (n = 0) &&
    !(decide (n = 1) && f.getD 1 false) &&
    !(decide (n = 2) && f.getD 1 false && f.getD 2 false) &&
    !decide (n = 5) &&
    !(f.getD 0 false && f.getD 4 false && !(f.getD 1 false) &&
      !(f.getD 2 false) && !(f.getD 3 false))

/-- The consumer's confidence gate, `handleDetectionResult` in
`CameraFeed.tsx` (lines 58–63): a result is forwarded to the UI iff its
confidence is strictly greater than 0.6. -/
def confidenceGate (r : DetectionResult) : Bool :=
  decide ((3/5 : ℚ) < r.confidence)

/-- A canonical open-hand sample: 21 landmarks in which every fingertip
(indices 4, 8, 12, 16, 20) sits above (smaller `y`) every MCP joint
(indices 5, 9, 13, 17). -/
def openHandSample : List HandLandmark :=
  (List.range 21).map fun i =>
    if i = 4 ∨ i = 8 ∨ i = 12 ∨ i = 16 ∨ i = 20 then ⟨0, 0, 0⟩
    else ⟨0, 1, 0⟩

/-- A sample on which only the thumb extension test fires (thumb tip above
the index MCP, every other fingertip level with its MCP): no
canonical-pose guard matches, so `classifyGesture` falls through to the
random fallback. -/
def thumbOnlySample : List HandLandmark :=
  (List.range 21).map fun i =>
    if i = 4 then ⟨0, 0, 0⟩ else ⟨0, 1, 0⟩

/-!
## The interpretation history buffer

`InterpretationDisplay.tsx`, lines 17–27: the effect that pushes a newly
interpreted label into the component state.  The component keeps the pair
`(textHistory, currentText)`; a push is ignored when the label is the
empty string (JavaScript falsiness) or equals `currentText`, and
otherwise appends after truncating the history to its last 4 entries
(`prev.slice(-4)`), so the stored history never exceeds 5 entries.
-/

/-- The buffer state of `InterpretationDisplay`: the `textHistory` and
`currentText` pieces of component state. -/
structure BufferState where
  textHistory : List String
  currentText : String
deriving DecidableEq

/-- One firing of the `textHistory` effect for a newly arrived
`interpretedText`.  `l.drop (l.length - 4)` is exactly JavaScript's
`l.slice(-4)`: the last four entries, or the whole list when shorter. -/
def pushLabel (interpretedText : String) (s : BufferState) : BufferState :=
  if interpretedText ≠ "" ∧ interpretedText ≠ s.currentText then
    { textHistory :=
        s.textHistory.drop (s.textHistory.length - 4) ++ [interpretedText],
      currentText := interpretedText }
  else s

/-- The buffer reached from the initial component state
(`useState<string[]>([])`, `useState('')`) by a sequence of pushes. -/
def runBuffer (labels : List String) : BufferState :=
  labels.foldl (fun s l => pushLabel l s) ⟨[], ""⟩

/-- The invariant maintained by `pushLabel`: the history holds at most 5
entries, adjacent entries differ, and `currentText` is the most recently
stored entry. -/
def BufferInv (s : BufferState) : Prop :=
  s.textHistory.length ≤ 5 ∧
  s.textHistory.Chain' (· ≠ ·) ∧
  (s.textHistory ≠ [] → s.textHistory.getLast? = some s.currentText)

/-!
## The detection service's lifecycle

`signLanguageDetection.ts`, the `SignLanguageDetectionService` class.
The mutable fields become a `ServiceState`; calls into the browser and
into the MediaPipe collaborator become `Event` values emitted alongside
the state change.  Each constructed `Hands` instance gets a fresh
identifier (`nextHandsId`) so that "which instance was configured" is
expressible.  `Event.closeHands` records the collaborator's `close()`
resource-release call; the source never invokes it, and no transition
below emits it.
-/

/-- The options object passed to `hands.setOptions` (lines 32–37). -/
structure HandsOptions where
  maxNumHands : ℕ
  modelComplexity : ℕ
  minDetectionConfidence : ℚ
  minTrackingConfidence : ℚ
deriving DecidableEq

/-- One constructed MediaPipe `Hands` instance: its identity and the
options it was configured with. -/
structure HandsInst where
  id : ℕ
  options : Option HandsOptions
deriving DecidableEq

/-- Externally visible calls made by the service. -/
inductive Event where
  | constructHands (id : ℕ)
  | setOptions (id : ℕ) (opts : HandsOptions)
  | cancelAnimationFrame (frame : ℕ)
  | closeHands (id : ℕ)
deriving DecidableEq

/-- Whether an event cancels a scheduled animation frame. -/
def Event.isCancelFrame : Event → Bool
  | Event.cancelAnimationFrame _ => true
  | _ => false

/-- Whether an event releases a `Hands` instance's resources. -/
def Event.isClose : Event → Bool
  | Event.closeHands _ => true
  | _ => false

/-- The mutable fields of `SignLanguageDetectionService`. -/
structure ServiceState where
  hands : Option HandsInst
  animationFrameId : Option ℕ
  isInitialized : Bool
  hasCallback : Bool
  sensitivity : ℚ
  language : String
  nextHandsId : ℕ
deriving DecidableEq

/-- The spec's `PipelineState` abstraction. -/
inductive PipelineState where
  | Idle
  | Initializing
  | Running
  | Stopping
deriving DecidableEq, BEq

/-- Abstraction map from the service's fields to the spec's
`PipelineState`: the source keeps no explicit state enum; the pipeline is
`Running` exactly while a per-frame callback is scheduled
(`animationFrameId` set), and quiescent (`Idle`) otherwise. -/
def pipelineState (s : ServiceState) : PipelineState :=
  if s.animationFrameId.isSome then PipelineState.Running
  else PipelineState.Idle

/-- `initialize` (lines 24–45): a no-op when already initialized;
otherwise constructs a fresh `Hands` instance and configures it with
detection and tracking thresholds `sensitivity / 10`. -/
def initializeService (s : ServiceState) : ServiceState × List Event :=
  if s.isInitialized then (s, [])
  else
    let id := s.nextHandsId
    let opts : HandsOptions := ⟨2, 1, s.sensitivity / 10, s.sensitivity / 10⟩
    ({ s with
        hands := some ⟨id, some opts⟩,
        isInitialized := true,
        nextHandsId := id + 1 },
     [Event.constructHands id, Event.setOptions id opts])

/-- `stopDetection` (lines 138–144): cancels the scheduled animation
frame, if any, and clears the results callback.  It is a total function —
it never throws — and it touches neither `hands` nor `isInitialized`. -/
def stopDetection (s : ServiceState) : ServiceState × List Event :=
  (({ s with animationFrameId := none, hasCallback := false }),
   match s.animationFrameId with
   | some f => [Event.cancelAnimationFrame f]
   | none => [])

/-- `updateSettings` (lines 146–154): stores the new sensitivity and
language; when the service is initialized it clears `isInitialized` and
re-runs `initialize`, which bakes `sensitivity / 10` into a freshly
constructed `Hands` instance. -/
def updateSettings (sens : ℚ) (lang : String) (s : ServiceState) :
    ServiceState × List Event :=
  let s1 := { s with sensitivity := sens, language := lang }
  if s1.isInitialized then
    initializeService { s1 with isInitialized := false }
  else (s1, [])

/-- The successive service states produced by the statements of
`updateSettings`, in source order: after the two field stores, after
clearing `isInitialized`, and after `initialize` returns. -/
def updateSettingsStates (sens : ℚ) (lang : String) (s : ServiceState) :
    List ServiceState :=
  let s1 := { s with sensitivity := sens, language := lang }
  if s1.isInitialized then
    let s2 := { s1 with isInitialized := false }
    [s1, s2, (initializeService s2).1]
  else [s1]

/-- A concrete running service: initialized, frame loop scheduled, with
the default sensitivity 7 already baked into a `Hands` instance. -/
def runningState : ServiceState :=
  { hands := some ⟨0, some ⟨2, 1, 7 / 10, 7 / 10⟩⟩,
    animationFrameId := some 1,
    isInitialized := true,
    hasCallback := true,
    sensitivity := 7,
    language := "American Sign Language (ASL)",
    nextHandsId := 1 }

/-- The sentence-analysis trigger of the enhanced
`SignLanguageDetectionService` embedded in `src/TODO.md` (the guard of
the `analyzeSentenceConstruction` dispatch inside `onResults`, lines
128–135 of that document):

```
if (this.sentenceConstructionEnabled &&
    now - this.lastSentenceAnalysis > this.sentenceAnalysisInterval &&
    this.detectedSignsBuffer.length >= 2)
```

The three conjuncts appear in source order; `sentenceConstructionEnabled`
defaults to `true` but is publicly togglable via
`setSentenceConstruction(enabled)`, and `sentenceAnalysisInterval`
defaults to 3000 ms. -/
def shouldAnalyze (sentenceConstructionEnabled : Bool)
    (detectedSignsBuffer : List String)
    (now lastSentenceAnalysis sentenceAnalysisInterval : ℤ) : Bool :=
  sentenceConstructionEnabled &&
  decide (sentenceAnalysisInterval < now - lastSentenceAnalysis) &&
  decide (2 ≤ detectedSignsBuffer.length)

/-!
## Helper lemmas
-/

/-- The fallback branch picks an element of the candidate vocabulary. -/
lemma commonSigns_getD_mem (n : ℕ) :
    commonSigns.getD (n % commonSigns.length) "Hello" ∈ commonSigns := by
  have h : n % commonSigns.length < commonSigns.length :=
    Nat.mod_lt _ (by decide)
  rw [List.getD_eq_getElem _ _ h]
  exact List.getElem_mem h

/-- One push preserves the buffer invariant. -/
lemma pushLabel_inv (l : String) {s : BufferState} (h : BufferInv s) :
    BufferInv (pushLabel l s) := by
  obtain ⟨hlen, hchain, hlast⟩ := h
  unfold pushLabel
  split_ifs with hg
  · obtain ⟨hne, hcur⟩ := hg
    refine ⟨?_, ?_, ?_⟩
    · simp only [List.length_append, List.length_drop, List.length_singleton]
      omega
    · rw [List.chain'_append]
      refine ⟨hchain.suffix (List.drop_suffix _ _), List.chain'_singleton _, ?_⟩
      intro x hx y hy
      simp only [List.head?_cons, Option.mem_def, Option.some.injEq] at hy
      subst hy
      have hd_ne : s.textHistory.drop (s.textHistory.length - 4) ≠ [] := by
        intro hnil
        rw [hnil] at hx
        simp at hx
      have hh_ne : s.textHistory ≠ [] := by
        intro hnil
        apply hd_ne
        rw [hnil]
        simp
      have hsplit :
          s.textHistory.getLast? =
            (s.textHistory.drop (s.textHistory.length - 4)).getLast? := by
        conv_lhs =>
          rw [← List.take_append_drop (s.textHistory.length - 4) s.textHistory]
        exact List.getLast?_append_of_ne_nil _ hd_ne
      have hx' : x = s.currentText := by
        have := hlast hh_ne
        rw [hsplit] at this
        rw [Option.mem_def] at hx
        rw [hx] at this
        exact (Option.some.injEq _ _).mp this.symm |>.symm
      rw [hx']
      exact fun he => hcur he.symm
    · intro _
      simp [List.getLast?_concat]
  · exact ⟨hlen, hchain, hlast⟩

/-- Folding pushes from an invariant state stays invariant. -/
lemma foldl_pushLabel_inv (labels : List String) :
    ∀ s : BufferState, BufferInv s →
      BufferInv (labels.foldl (fun s l => pushLabel l s) s) := by
  induction labels with
  | nil => intro s h; simpa using h
  | cons a t ih =>
    intro s h
    simpa using ih _ (pushLabel_inv a h)

/-- Every reachable buffer state satisfies the invariant. -/
lemma runBuffer_inv (labels : List String) : BufferInv (runBuffer labels) :=
  foldl_pushLabel_inv labels _ (by refine ⟨by simp, by simp, by simp⟩)

/-!
## Claim theorems
-/

/-- C3: for an empty hand list, or a first hand with fewer than 21
landmarks, `classifyGesture` returns `none`; being a total function into
`Option`, the case is a value, never a raised error. -/
theorem classify_malformed_none (hand : List HandLandmark)
    (rest : List (List HandLandmark)) (rand : ℕ) :
    classifyGesture [] rand = none ∧
    (hand.length < 21 → classifyGesture (hand :: rest) rand = none) := by
  refine ⟨rfl, fun h => ?_⟩
  simp [classifyGesture, h]

/-- Witness for C3 at concrete inputs: the empty list and a one-landmark
hand both classify to `none`. -/
theorem classify_malformed_none_witness :
    classifyGesture [] 0 = none ∧
    classifyGesture [[defaultLandmark]] 0 = none :=
  ⟨(classify_malformed_none [defaultLandmark] [] 0).1,
   (classify_malformed_none [defaultLandmark] [] 0).2 (by decide)⟩

/-- Counterexample to C6 as stated: with sentence construction disabled
(a state every caller can reach through `setSentenceConstruction(false)`),
the trigger is false on the spec's own scenario — buffer
`["Hello", "How are you?"]`, 5000 ms elapsed against the 3000 ms
interval — even though the claim's right-hand side (length ≥ 2 and
elapsed time exceeding the interval) holds, so the claimed
"if and only if" fails on the code. -/
theorem shouldAnalyze_needs_enabled_counterexample :
    shouldAnalyze false ["Hello", "How are you?"] 5000 0 3000 = false ∧
    2 ≤ (["Hello", "How are you?"] : List String).length ∧
    (3000 : ℤ) < 5000 - 0 :=
  ⟨rfl, by decide, by decide⟩

/-- C6 (amended): with the code's 3000 ms interval, the sentence-analysis
trigger fires iff sentence construction is enabled, the elapsed time
since the last analysis exceeds the interval, and the buffer holds at
least 2 labels; a buffer of length 1 never triggers, regardless of
elapsed time and of the enabled flag. -/
theorem shouldAnalyze_iff (enabled : Bool) (buffer : List String)
    (now last : ℤ) :
    (shouldAnalyze enabled buffer now last 3000 = true ↔
      enabled = true ∧ 3000 < now - last ∧ 2 ≤ buffer.length) ∧
    (buffer.length = 1 →
      shouldAnalyze enabled buffer now last 3000 = false) := by
  constructor
  · simp [shouldAnalyze, and_assoc]
  · intro h
    simp [shouldAnalyze, h]

/-- Witness for the amended C6: with sentence construction enabled, a
two-label buffer with ample elapsed time triggers, a one-label buffer
never does. -/
theorem shouldAnalyze_iff_witness :
    shouldAnalyze true ["Hello", "How are you?"] 5000 0 3000 = true ∧
    shouldAnalyze true ["Hello"] 999999 0 3000 = false :=
  ⟨(shouldAnalyze_iff true ["Hello", "How are you?"] 5000 0).1.mpr
      ⟨rfl, by decide, by decide⟩,
   (shouldAnalyze_iff true ["Hello"] 999999 0).2 (by decide)⟩

/-- C7: `stopDetection` is idempotent — the second call changes nothing
and performs no external call — and after it the pipeline is `Idle`.
The function is total, so no error can be raised. -/
theorem stop_idempotent (s : ServiceState) :
    (stopDetection (stopDetection s).1).1 = (stopDetection s).1 ∧
    (stopDetection (stopDetection s).1).2 = [] ∧
    pipelineState (stopDetection s).1 = PipelineState.Idle ∧
    pipelineState (stopDetection (stopDetection s).1).1 = PipelineState.Idle := by
  refine ⟨rfl, rfl, ?_, ?_⟩ <;> simp [stopDetection, pipelineState]

/-- C10: every result `classifyGesture` emits has confidence 0.8
(canonical pose) or 0.7 (fallback), both strictly above the 0.6 gate of
`handleDetectionResult` in `CameraFeed.tsx`, so the consumer's gate never
suppresses a classification the service emits. -/
theorem classify_confidence_above_gate (lm : List (List HandLandmark))
    (rand : ℕ) (r : DetectionResult)
    (h : classifyGesture lm rand = some r) :
    (r.confidence = 4/5 ∨ r.confidence = 7/10) ∧
    (3/5 : ℚ) < r.confidence ∧ confidenceGate r = true := by
  match lm with
  | [] => simp [classifyGesture] at h
  | hand :: rest =>
    simp only [classifyGesture] at h
    split_ifs at h
    all_goals first
      | exact Option.noConfusion h
      | (obtain rfl : r = _ := (Option.some.injEq _ _).mp h.symm
         exact ⟨by norm_num, by norm_num,
                by simp only [confidenceGate]; norm_num⟩)

/-- Witness for C10 at the open-hand sample. -/
theorem classify_confidence_above_gate_witness :
    ((⟨"Open Hand", 4/5, some [openHandSample]⟩ : DetectionResult).confidence
        = 4/5 ∨
     (⟨"Open Hand", 4/5, some [openHandSample]⟩ : DetectionResult).confidence
        = 7/10) ∧
    (3/5 : ℚ) <
      (⟨"Open Hand", 4/5, some [openHandSample]⟩ : DetectionResult).confidence ∧
    confidenceGate ⟨"Open Hand", 4/5, some [openHandSample]⟩ = true :=
  classify_confidence_above_gate [openHandSample] 0 _ (by rfl)

/-- C4: a first hand with at least 21 landmarks always classifies to
`some` result; when no canonical-pose guard matches, the fallback branch
picks a sign from the `commonSigns` vocabulary with confidence 0.7, which
lies in the interval [0.65, 0.7]. -/
theorem classify_total_fallback (hand : List HandLandmark)
    (rest : List (List HandLandmark)) (rand : ℕ) (h21 : 21 ≤ hand.length) :
    (∃ r, classifyGesture (hand :: rest) rand = some r) ∧
    (reachesFallback (hand :: rest) = true →
      ∃ r, classifyGesture (hand :: rest) rand = some r ∧
        r.sign ∈ commonSigns ∧ r.confidence = 7/10 ∧
        (13/20 : ℚ) ≤ r.confidence ∧ r.confidence ≤ 7/10) := by
  constructor
  · simp only [classifyGesture]
    split_ifs with h1 <;> try exact ⟨_, rfl⟩
    exact absurd h1 (by omega)
  · intro hf
    simp only [reachesFallback, Bool.and_eq_true, Bool.not_eq_true',
      decide_eq_false_iff_not, Bool.and_eq_false_iff] at hf
    obtain ⟨⟨⟨⟨hA, hB⟩, hC⟩, hD⟩, hE⟩ := hf.1
    have hF := hf.2
    have hC' : ¬(numFingersUp hand = 1 ∧
        (fingersUp hand).getD 1 false = true) := by
      rintro ⟨e1, e2⟩
      rcases hC with h | h
      · exact h e1
      · rw [e2] at h
        exact Bool.noConfusion h
    have hD' : ¬(numFingersUp hand = 2 ∧
        (fingersUp hand).getD 1 false = true ∧
        (fingersUp hand).getD 2 false = true) := by
      rintro ⟨e1, e2, e3⟩
      rcases hD with (h | h) | h
      · exact h e1
      · rw [e2] at h
        exact Bool.noConfusion h
      · rw [e3] at h
        exact Bool.noConfusion h
    have hF' : ¬((fingersUp hand).getD 0 false = true ∧
        (fingersUp hand).getD 4 false = true ∧
        (fingersUp hand).getD 1 false = false ∧
        (fingersUp hand).getD 2 false = false ∧
        (fingersUp hand).getD 3 false = false) := by
      rintro ⟨e0, e4, e1, e2, e3⟩
      rcases hF with (((h | h) | h) | h) | h
      · rw [e0] at h
        exact Bool.noConfusion h
      · rw [e4] at h
        exact Bool.noConfusion h
      · rw [e1] at h
        exact Bool.noConfusion h
      · rw [e2] at h
        exact Bool.noConfusion h
      · rw [e3] at h
        exact Bool.noConfusion h
    refine ⟨⟨commonSigns.getD (rand % commonSigns.length) "Hello", 7/10,
             some (hand :: rest)⟩,
            ?_, commonSigns_getD_mem rand, rfl, by norm_num, by norm_num⟩
    simp only [classifyGesture]
    rw [if_neg hA, if_neg hB, if_neg hC', if_neg hD', if_neg hE, if_neg hF']

/-- Witness for C4 at the thumb-only sample, which reaches the fallback:
the result is in the vocabulary with confidence 0.7. -/
theorem classify_total_fallback_witness :
    (∃ r, classifyGesture [thumbOnlySample] 2 = some r) ∧
    (∃ r, classifyGesture [thumbOnlySample] 2 = some r ∧
      r.sign ∈ commonSigns ∧ r.confidence = 7/10 ∧
      (13/20 : ℚ) ≤ r.confidence ∧ r.confidence ≤ 7/10) :=
  ⟨(classify_total_fallback thumbOnlySample [] 2 (by decide)).1,
   (classify_total_fallback thumbOnlySample [] 2 (by decide)).2 (by decide)⟩

/-- C1 (amended): a first hand with at least 21 landmarks whose
finger-extension booleans match one of the five canonical static poses is
classified as that pose's label with confidence 0.8 — not 0.85 as the
spec claims — and the code's `DetectionResult` carries no `gestureType`
field at all. -/
theorem classify_canonical_pose (hand : List HandLandmark)
    (rest : List (List HandLandmark)) (rand : ℕ) (h21 : 21 ≤ hand.length) :
    (fingersUp hand = [false, false, false, false, false] →
      classifyGesture (hand :: rest) rand =
        some ⟨"Fist", 4/5, some (hand :: rest)⟩) ∧
    (fingersUp hand = [false, true, false, false, false] →
      classifyGesture (hand :: rest) rand =
        some ⟨"Point", 4/5, some (hand :: rest)⟩) ∧
    (fingersUp hand = [false, true, true, false, false] →
      classifyGesture (hand :: rest) rand =
        some ⟨"Peace", 4/5, some (hand :: rest)⟩) ∧
    (fingersUp hand = [true, true, true, true, true] →
      classifyGesture (hand :: rest) rand =
        some ⟨"Open Hand", 4/5, some (hand :: rest)⟩) ∧
    (fingersUp hand = [true, false, false, false, true] →
      classifyGesture (hand :: rest) rand =
        some ⟨"I Love You", 4/5, some (hand :: rest)⟩) := by
  have h21' : ¬ hand.length < 21 := by omega
  refine ⟨fun hf => ?_, fun hf => ?_, fun hf => ?_, fun hf => ?_,
          fun hf => ?_⟩ <;>
    first
    | (have hn : numFingersUp hand = 0 := by simp [numFingersUp, hf]
       simp [classifyGesture, h21', hn, hf])
    | (have hn : numFingersUp hand = 1 := by simp [numFingersUp, hf]
       simp [classifyGesture, h21', hn, hf])
    | (have hn : numFingersUp hand = 2 := by simp [numFingersUp, hf]
       simp [classifyGesture, h21', hn, hf])
    | (have hn : numFingersUp hand = 5 := by simp [numFingersUp, hf]
       simp [classifyGesture, h21', hn, hf])

/-- Counterexample to C1 as stated: on the canonical open-hand sample
`classifyGesture` returns confidence 4/5 = 0.8, and 0.8 ≠ 0.85 = 17/20;
the claim's "confidence exactly 0.85" is false on the code (which also
has no `gestureType` field to carry `Static`). -/
theorem classify_openHand_conf_ne_085 :
    classifyGesture [openHandSample] 0 =
      some ⟨"Open Hand", 4/5, some [openHandSample]⟩ ∧
    (4/5 : ℚ) ≠ 17/20 :=
  ⟨rfl, by norm_num⟩

/-- Witness for the amended C1 at the canonical open-hand sample. -/
theorem classify_canonical_pose_witness :
    classifyGesture [openHandSample] 3 =
      some ⟨"Open Hand", 4/5, some [openHandSample]⟩ :=
  (classify_canonical_pose openHandSample [] 3
    (by decide)).2.2.2.1 (by decide)

/-- C2 (amended): given the fallback tier's random draw, `classifyGesture`
is a pure function of its landmarks — and on any input that does not
reach the random fallback the result is independent of the draw (the
function never reads the configured language at all).  On fallback-tier
inputs, however, two invocations may differ (see the counterexample), so
the result is not determined by landmarks and language alone. -/
theorem classify_deterministic_off_fallback
    (lm : List (List HandLandmark)) (r₁ r₂ : ℕ)
    (h : reachesFallback lm = false) :
    classifyGesture lm r₁ = classifyGesture lm r₂ := by
  match lm with
  | [] => rfl
  | hand :: rest =>
    simp only [classifyGesture]
    split_ifs with h1 h2 h3 h4 h5 h6 <;> try rfl
    exfalso
    have hgoal : reachesFallback (hand :: rest) = true := by
      simp only [reachesFallback, Bool.and_eq_true, Bool.not_eq_true',
        decide_eq_false_iff_not, Bool.and_eq_false_iff, Bool.not_eq_false]
      refine ⟨⟨⟨⟨⟨h1, h2⟩, ?_⟩, ?_⟩, h5⟩, ?_⟩
      · rcases Bool.eq_false_or_eq_true ((fingersUp hand).getD 1 false)
          with hb | hb
        · exact Or.inl fun hn => h3 ⟨hn, hb⟩
        · exact Or.inr hb
      · rcases Bool.eq_false_or_eq_true ((fingersUp hand).getD 1 false)
          with hb1 | hb1
        · rcases Bool.eq_false_or_eq_true ((fingersUp hand).getD 2 false)
            with hb2 | hb2
          · exact Or.inl (Or.inl fun hn => h4 ⟨hn, hb1, hb2⟩)
          · exact Or.inr hb2
        · exact Or.inl (Or.inr hb1)
      · rcases Bool.eq_false_or_eq_true ((fingersUp hand).getD 1 false)
          with hb1 | hb1
        · exact Or.inl (Or.inl (Or.inr (by rw [hb1]; rfl)))
        · rcases Bool.eq_false_or_eq_true ((fingersUp hand).getD 2 false)
            with hb2 | hb2
          · exact Or.inl (Or.inr (by rw [hb2]; rfl))
          · rcases Bool.eq_false_or_eq_true ((fingersUp hand).getD 3 false)
              with hb3 | hb3
            · exact Or.inr (by rw [hb3]; rfl)
            · rcases Bool.eq_false_or_eq_true ((fingersUp hand).getD 0 false)
                with hb0 | hb0
              · rcases Bool.eq_false_or_eq_true
                  ((fingersUp hand).getD 4 false) with hb4 | hb4
                · exact absurd ⟨hb0, hb4, hb1, hb2, hb3⟩ h6
                · exact Or.inl (Or.inl (Or.inl (Or.inr hb4)))
              · exact Or.inl (Or.inl (Or.inl (Or.inl hb0)))
    rw [h] at hgoal
    exact Bool.noConfusion hgoal

/-- Counterexample to C2 as stated: on the thumb-only sample — identical
landmarks, identical configured language (the function never reads the
language) — two invocations of `classifyGesture` differing only in the
hidden `Math.random()` draw return different signs ("Hello" vs
"Thank you"), so `classifyGesture` is not a deterministic function of its
landmarks and the configured language. -/
theorem classify_not_deterministic_counterexample :
    classifyGesture [thumbOnlySample] 0 ≠ classifyGesture [thumbOnlySample] 1 := by
  intro h
  have h2 : (some (⟨"Hello", 7/10, some [thumbOnlySample]⟩ : DetectionResult)) =
      some ⟨"Thank you", 7/10, some [thumbOnlySample]⟩ := h
  simp at h2

/-- Witness for the amended C2: the open-hand sample never reaches the
fallback, and its classification is independent of the draw. -/
theorem classify_deterministic_off_fallback_witness :
    classifyGesture [openHandSample] 0 = classifyGesture [openHandSample] 7 :=
  classify_deterministic_off_fallback [openHandSample] 0 7 (by decide)

/-- C5: for every sequence of labels pushed into the interpretation
buffer, the stored history never exceeds 10 entries (the code in fact
caps it at 5: `prev.slice(-4)` plus the new entry), no two adjacent
stored entries are equal, a push of the label equal to the last stored
entry is a no-op, and a push that appends either extends the history
(below capacity) or evicts exactly the oldest entry (FIFO). -/
theorem sentenceBuffer_invariants (labels : List String) :
    (runBuffer labels).textHistory.length ≤ 10 ∧
    (runBuffer labels).textHistory.Chain' (· ≠ ·) ∧
    (∀ l, (runBuffer labels).textHistory.getLast? = some l →
      pushLabel l (runBuffer labels) = runBuffer labels) ∧
    (∀ l, l ≠ "" → l ≠ (runBuffer labels).currentText →
      (pushLabel l (runBuffer labels)).textHistory =
        if (runBuffer labels).textHistory.length ≤ 4
        then (runBuffer labels).textHistory ++ [l]
        else (runBuffer labels).textHistory.tail ++ [l]) := by
  obtain ⟨hlen, hchain, hlast⟩ := runBuffer_inv labels
  refine ⟨by omega, hchain, ?_, ?_⟩
  · intro l hl
    have hne : (runBuffer labels).textHistory ≠ [] := by
      intro hnil
      rw [hnil] at hl
      exact Option.noConfusion hl
    have hcur : l = (runBuffer labels).currentText := by
      have := hlast hne
      rw [hl] at this
      exact Option.some.inj this
    rw [pushLabel, if_neg]
    rintro ⟨-, hne2⟩
    exact hne2 hcur
  · intro l h1 h2
    rw [pushLabel, if_pos ⟨h1, h2⟩]
    by_cases hle : (runBuffer labels).textHistory.length ≤ 4
    · rw [if_pos hle]
      have : (runBuffer labels).textHistory.length - 4 = 0 := by omega
      simp [this]
    · rw [if_neg hle]
      have h5 : (runBuffer labels).textHistory.length = 5 := by omega
      have : (runBuffer labels).textHistory.length - 4 = 1 := by omega
      simp [this, List.drop_one]

/-- Witness for C5: after pushing "Hi" then "Hello", re-pushing the last
stored entry "Hello" is a no-op, and pushing a fresh label onto a
below-capacity buffer appends it. -/
theorem sentenceBuffer_invariants_witness :
    pushLabel "Hello" (runBuffer ["Hi", "Hello"]) = runBuffer ["Hi", "Hello"] ∧
    (pushLabel "Yes" (runBuffer ["Hi", "Hello"])).textHistory =
      (if (runBuffer ["Hi", "Hello"]).textHistory.length ≤ 4
       then (runBuffer ["Hi", "Hello"]).textHistory ++ ["Yes"]
       else (runBuffer ["Hi", "Hello"]).textHistory.tail ++ ["Yes"]) :=
  ⟨(sentenceBuffer_invariants ["Hi", "Hello"]).2.2.1 "Hello" (by decide),
   (sentenceBuffer_invariants ["Hi", "Hello"]).2.2.2 "Yes" (by decide)
     (by decide)⟩

/-- Counterexample to C8 as stated: from a running state, `stopDetection`
returns with the MediaPipe `Hands` instance still held (its resources are
not released — the source never calls the collaborator's `close()`); the
only external call it makes is the animation-frame cancellation. -/
theorem stop_no_release_counterexample :
    (stopDetection runningState).1.hands =
      some ⟨0, some ⟨2, 1, 7 / 10, 7 / 10⟩⟩ ∧
    (stopDetection runningState).2 = [Event.cancelAnimationFrame 1] ∧
    ((stopDetection runningState).2.all fun e => !e.isClose) = true :=
  ⟨rfl, rfl, rfl⟩

/-- C8 (amended): after `stopDetection` returns, the pending per-frame
callback has been cancelled (`cancelAnimationFrame` on the pending id,
`animationFrameId` cleared) and the results callback is cleared, but the
hand-tracking collaborator's resources are NOT released: the `Hands`
instance and the initialized flag are retained and no release call is
ever emitted. -/
theorem stop_cancels_frame_keeps_hands (s : ServiceState) :
    (stopDetection s).1.animationFrameId = none ∧
    (stopDetection s).1.hasCallback = false ∧
    (stopDetection s).1.hands = s.hands ∧
    (stopDetection s).1.isInitialized = s.isInitialized ∧
    (∀ f, s.animationFrameId = some f →
      (stopDetection s).2 = [Event.cancelAnimationFrame f]) ∧
    (s.animationFrameId = none → (stopDetection s).2 = []) ∧
    ((stopDetection s).2.all fun e => !e.isClose) = true := by
  refine ⟨rfl, rfl, rfl, rfl, ?_, ?_, ?_⟩
  · intro f hf
    simp [stopDetection, hf]
  · intro hf
    simp [stopDetection, hf]
  · rcases hfr : s.animationFrameId with - | f <;>
      simp [stopDetection, hfr, Event.isClose]

/-- Witness for the amended C8 at a concrete running state. -/
theorem stop_cancels_frame_keeps_hands_witness :
    (stopDetection runningState).2 = [Event.cancelAnimationFrame 1] ∧
    (stopDetection runningState).1.hands = runningState.hands :=
  ⟨(stop_cancels_frame_keeps_hands runningState).2.2.2.2.1 1 rfl,
   (stop_cancels_frame_keeps_hands runningState).2.2.1⟩

/-- Counterexample to C9 as stated: a settings update issued on a running
pipeline never passes through `Stopping` — at every intermediate state the
frame loop is still scheduled (the pipeline stays `Running` throughout)
and no `cancelAnimationFrame` is ever issued, so the in-flight per-frame
scheduling is never drained before the new collaborator is swapped in. -/
theorem updateSettings_never_stopping_counterexample :
    ((updateSettingsStates 5 "KSL" runningState).all fun t =>
      pipelineState t == PipelineState.Running) = true ∧
    ((updateSettings 5 "KSL" runningState).2.all fun e =>
      !e.isCancelFrame) = true :=
  ⟨rfl, rfl⟩

/-- C9 (amended): a settings update while the service is initialized
stores the new sensitivity and language and forces a full
reinitialization: a fresh `Hands` instance (identity `s.nextHandsId`) is
constructed and configured with detection and tracking thresholds equal
to `sensitivity / 10`; the only `setOptions` call targets that fresh
instance, so thresholds are never mutated on the previously running
collaborator; but the frame loop is left untouched — the pipeline never
passes through `Stopping`. -/
theorem updateSettings_reinitializes (s : ServiceState) (sens : ℚ)
    (lang : String) (h : s.isInitialized = true) :
    (updateSettings sens lang s).1.sensitivity = sens ∧
    (updateSettings sens lang s).1.language = lang ∧
    (updateSettings sens lang s).1.isInitialized = true ∧
    (updateSettings sens lang s).1.hands =
      some ⟨s.nextHandsId, some ⟨2, 1, sens / 10, sens / 10⟩⟩ ∧
    (updateSettings sens lang s).1.animationFrameId = s.animationFrameId ∧
    (updateSettings sens lang s).2 =
      [Event.constructHands s.nextHandsId,
       Event.setOptions s.nextHandsId ⟨2, 1, sens / 10, sens / 10⟩] ∧
    ((updateSettings sens lang s).2.all fun e => !e.isCancelFrame) = true ∧
    pipelineState (updateSettings sens lang s).1 = pipelineState s := by
  simp [updateSettings, initializeService, h, pipelineState,
    Event.isCancelFrame]

/-- Witness for the amended C9 at a concrete running state. -/
theorem updateSettings_reinitializes_witness :
    (updateSettings 5 "KSL" runningState).1.sensitivity = 5 ∧
    (updateSettings 5 "KSL" runningState).1.language = "KSL" ∧
    (updateSettings 5 "KSL" runningState).1.isInitialized = true ∧
    (updateSettings 5 "KSL" runningState).1.hands =
      some ⟨runningState.nextHandsId, some ⟨2, 1, 5 / 10, 5 / 10⟩⟩ ∧
    (updateSettings 5 "KSL" runningState).1.animationFrameId =
      runningState.animationFrameId ∧
    (updateSettings 5 "KSL" runningState).2 =
      [Event.constructHands runningState.nextHandsId,
       Event.setOptions runningState.nextHandsId ⟨2, 1, 5 / 10, 5 / 10⟩] ∧
    ((updateSettings 5 "KSL" runningState).2.all fun e =>
      !e.isCancelFrame) = true ∧
    pipelineState (updateSettings 5 "KSL" runningState).1 =
      pipelineState runningState :=
  updateSettings_reinitializes runningState 5 "KSL" rfl
